import Mathlib

/-!
Shallow embedding of the `a2a-rs` crate (`src/lib.rs`): the A2A protocol data
model and its validation engine.  Rust `String` values are modelled as Lean
`String` (a structure over `List Char`); Rust's byte-oriented `str::len` is
modelled by `bytesLen` (the sum of the UTF-8 sizes of the characters), and
character-level operations (`contains`, `starts_with`, `to_lowercase`,
`chars().all`) are modelled on the underlying character list.  Rust
`Result<(), String>` is modelled as `Except String Unit`, `serde_json::Value`
as the inductive `Json`, and `HashMap<String, String>` as an association list
`List (String × String)`.
-/

/-- Rust `str::len`: the length of the string in UTF-8 bytes. -/
def bytesLen (s : String) : Nat := (s.data.map Char.utf8Size).sum

/-- Rust `str::is_empty`. -/
def strIsEmpty (s : String) : Bool := s.data.isEmpty

/-- Rust `str::contains(char)`. -/
def strContains (s : String) (c : Char) : Bool := s.data.contains c

/-- Rust `str::starts_with(pat)`: `pat` is an initial segment of `s`. -/
def strStartsWith (s p : String) : Bool := p.data.isPrefixOf s.data

/-- Rust slicing `&s[n..]` where the first `n` bytes are ASCII (all uses in
the source drop an ASCII scheme prefix, so dropping `n` characters coincides
with dropping `n` bytes). -/
def strDrop (s : String) (n : Nat) : String := ⟨s.data.drop n⟩

/-- Rust `str::to_lowercase`, modelled characterwise (faithful on ASCII,
which is all the source ever compares against). -/
def strToLower (s : String) : String := ⟨s.data.map Char.toLower⟩

/-- Rust `char::is_alphanumeric`, modelled by Lean's ASCII
`Char.isAlphanum` (faithful on the ASCII plane). -/
def charIsAlphanumeric (c : Char) : Bool := c.isAlphanum

/-- Rust `s.chars().all(p)`. -/
def strAll (s : String) (p : Char → Bool) : Bool := s.data.all p

set_option maxRecDepth 20000

deriving instance DecidableEq for Except

/-- `true` exactly on `Except.ok`. -/
def isOkE {α : Type} : Except String α → Bool
  | .ok _ => true
  | .error _ => false

/-- `true` exactly on `Except.error`. -/
def isErrE {α : Type} : Except String α → Bool
  | .ok _ => false
  | .error _ => true

/-- Rust's `?` on a `Result<(), String>`: run `a`; on success continue with `b`. -/
def andThenE (a : Except String Unit) (b : Except String Unit) : Except String Unit :=
  match a with
  | .ok _ => b
  | .error e => .error e

/-- Rust `map_err(|e| prefix + e)` on a `Result<(), String>`. -/
def wrapErr (p : String) : Except String Unit → Except String Unit
  | .ok u => .ok u
  | .error e => .error (p ++ e)

/-- `serde_json::Value`, with numbers restricted to the integers (the only
numeric values the modelled code ever inspects). -/
inductive Json where
  | null : Json
  | bool (b : Bool) : Json
  | num (n : Int) : Json
  | str (s : String) : Json
  | arr (xs : List Json) : Json
  | obj (fields : List (String × Json)) : Json

/-- `serde_json::Value::get(key)`: field lookup on an object, `none` otherwise. -/
def Json.get : Json → String → Option Json
  | .obj fields, k => fields.lookup k
  | _, _ => none

/-- `serde_json::Value::as_i64`: the integer behind a number, `none` otherwise. -/
def Json.asInt : Json → Option Int
  | .num n => some n
  | _ => none

/-- `serde_json::Value::as_str`-style extraction of a string. -/
def Json.asStr : Json → Option String
  | .str s => some s
  | _ => none

/-! ## Task state machine (`TaskState`, `validation::validate_task_state_transition`) -/

/-- `TaskState` (lib.rs, line 138). -/
inductive TaskState where
  | Submitted | Working | InputRequired | Completed | Canceled
  | Failed | Rejected | AuthRequired | Unknown
deriving DecidableEq, BEq

/-- Rust `{:?}` (derived `Debug`) rendering of a `TaskState`. -/
def TaskState.debugStr : TaskState → String
  | .Submitted => "Submitted"
  | .Working => "Working"
  | .InputRequired => "InputRequired"
  | .Completed => "Completed"
  | .Canceled => "Canceled"
  | .Failed => "Failed"
  | .Rejected => "Rejected"
  | .AuthRequired => "AuthRequired"
  | .Unknown => "Unknown"

namespace validation

/-- `validation::validate_task_state_transition` (lib.rs, line 1530). -/
def validate_task_state_transition (from_state to_state : TaskState) : Except String Unit :=
  let valid_transitions : List TaskState :=
    match from_state with
    | .Submitted => [.Working, .Rejected, .Canceled, .AuthRequired]
    | .Working => [.Completed, .Failed, .Canceled, .InputRequired]
    | .InputRequired => [.Working, .Canceled, .Failed]
    | .AuthRequired => [.Working, .Rejected, .Canceled]
    | .Completed => []
    | .Failed => []
    | .Canceled => []
    | .Rejected => []
    | .Unknown => [.Submitted, .Working, .Completed, .Failed, .Canceled, .Rejected,
                   .AuthRequired, .InputRequired]
  if !(valid_transitions.contains to_state) then
    .error ("Invalid task state transition from " ++ from_state.debugStr
            ++ " to " ++ to_state.debugStr)
  else
    .ok ()

/-- `validation::validate_url` (lib.rs, line 1448). -/
def validate_url (url : String) : Except String Unit :=
  if strIsEmpty url then .error ("URL cannot be empty")
  else if !(strStartsWith url ("http://")) && !(strStartsWith url ("https://")) then
    .error ("URL must start with http:// or https://")
  else if bytesLen url < 10 then .error ("URL appears to be too short")
  else
    let without_protocol :=
      if strStartsWith url ("https://") then strDrop url 8 else strDrop url 7
    if strIsEmpty without_protocol then .error ("URL must contain a domain")
    else if strContains url ' ' then .error ("URL cannot contain spaces")
    else .ok ()

/-- `validation::validate_message_id` (lib.rs, line 1561). -/
def validate_message_id (message_id : String) : Except String Unit :=
  if strIsEmpty message_id then .error ("Message ID cannot be empty")
  else if bytesLen message_id > 255 then
    .error ("Message ID is too long (max 255 characters)")
  else if !(strAll message_id (fun c => charIsAlphanumeric c || c == '-' || c == '_')) then
    .error ("Message ID can only contain alphanumeric characters, hyphens, and underscores")
  else .ok ()

/-- `validation::validate_task_id` (lib.rs, line 1587). -/
def validate_task_id (task_id : String) : Except String Unit :=
  if strIsEmpty task_id then .error ("Task ID cannot be empty")
  else if bytesLen task_id > 255 then
    .error ("Task ID is too long (max 255 characters)")
  else if !(strAll task_id (fun c => charIsAlphanumeric c || c == '-' || c == '_')) then
    .error ("Task ID can only contain alphanumeric characters, hyphens, and underscores")
  else .ok ()

/-- `validation::validate_skill_id` (lib.rs, line 1672). -/
def validate_skill_id (skill_id : String) : Except String Unit :=
  if strIsEmpty skill_id then .error ("Skill ID cannot be empty")
  else if bytesLen skill_id > 100 then
    .error ("Skill ID is too long (max 100 characters)")
  else if !(strAll skill_id
      (fun c => charIsAlphanumeric c || c == '-' || c == '_' || c == '.')) then
    .error ("Skill ID can only contain alphanumeric characters, hyphens, underscores, and dots")
  else .ok ()

end validation

/-- The acceptance rule that claim C4 states for `validate_skill_id`
(identifier rule extended with dots: non-empty, at most 255 characters,
every character alphanumeric, hyphen, underscore, or dot), written from the
claim's words. -/
def skillIdAcceptClaim (s : String) : Prop :=
  strIsEmpty s = false ∧ bytesLen s ≤ 255 ∧
    strAll s (fun c => charIsAlphanumeric c || c == '-' || c == '_' || c == '.') = true

/-- A 150-character alphanumeric skill id: accepted by the claim's rule,
rejected by the code (the code caps skill ids at 100, not 255). -/
def skillId150 : String := ⟨List.replicate 150 'a'⟩

/-- C4 counterexample: the 150-character skill id satisfies the claimed
acceptance rule (non-empty, ≤255 chars, all characters legal) yet
`validate_skill_id` rejects it, so the claim as stated is false. -/
theorem validate_skill_id_counterexample :
    skillIdAcceptClaim skillId150 ∧
      validation.validate_skill_id skillId150 =
        Except.error ("Skill ID is too long (max 100 characters)") := by
  constructor
  · exact ⟨by decide, by decide, by decide⟩
  · decide

/-- C4 (amended): `validate_skill_id` accepts exactly the strings that are
non-empty, at most 100 characters, and whose characters are all
alphanumeric, hyphen, underscore, or dot; any other string is rejected. -/
theorem validate_skill_id_amended :
    ∀ s : String,
      validation.validate_skill_id s = Except.ok () ↔
        (strIsEmpty s = false ∧ bytesLen s ≤ 100 ∧
          strAll s (fun c => charIsAlphanumeric c || c == '-' || c == '_' || c == '.') = true) := by
  intro s
  simp only [validation.validate_skill_id]
  split_ifs with h1 h2 h3 <;> simp_all

/-- C5: `validate_url` succeeds exactly on the non-empty strings of at least
10 bytes that start with `http://` or `https://`, have a non-empty remainder
after the scheme prefix, and contain no space; in particular
`https://example.com/api` passes while `ftp://x`, the empty string,
`http://`, and strings with spaces fail. -/
theorem validate_url_spec :
    (∀ url : String,
      validation.validate_url url = Except.ok () ↔
        (strIsEmpty url = false ∧ bytesLen url ≥ 10 ∧
          (strStartsWith url ("http://") = true ∨ strStartsWith url ("https://") = true) ∧
          strIsEmpty (strDrop url (if strStartsWith url ("https://") then 8 else 7)) = false ∧
          strContains url ' ' = false))
    ∧ validation.validate_url ("https://example.com/api") = Except.ok ()
    ∧ isErrE (validation.validate_url ("ftp://x")) = true
    ∧ isErrE (validation.validate_url ("")) = true
    ∧ isErrE (validation.validate_url ("http://")) = true := by
  refine ⟨?_, by decide, by decide, by decide, by decide⟩
  intro url
  simp only [validation.validate_url]
  split_ifs with h1 h2 h3 h4 h5 <;> simp_all

/-- The transition table as worded in the specification (§4.1 of the spec /
claim C1), written independently of the source for comparison. -/
def transitionAllowedSpec (a b : TaskState) : Prop :=
  match a with
  | .Submitted => b = .Working ∨ b = .Rejected ∨ b = .Canceled ∨ b = .AuthRequired
  | .Working => b = .Completed ∨ b = .Failed ∨ b = .Canceled ∨ b = .InputRequired
  | .InputRequired => b = .Working ∨ b = .Canceled ∨ b = .Failed
  | .AuthRequired => b = .Working ∨ b = .Rejected ∨ b = .Canceled
  | .Completed => False
  | .Failed => False
  | .Canceled => False
  | .Rejected => False
  | .Unknown => b ≠ .Unknown

instance (a b : TaskState) : Decidable (transitionAllowedSpec a b) := by
  unfold transitionAllowedSpec
  cases a <;> infer_instance

/-- C1: `validate_task_state_transition` succeeds exactly on the edges of the
transition table (Submitted→{Working, Rejected, Canceled, AuthRequired};
Working→{Completed, Failed, Canceled, InputRequired};
InputRequired→{Working, Canceled, Failed}; AuthRequired→{Working, Rejected,
Canceled}; the four terminal states have no outgoing edges; Unknown may go to
any non-Unknown state), and returns an error describing the invalid
transition on every other pair. -/
theorem validate_task_state_transition_spec :
    ∀ a b : TaskState,
      (validation.validate_task_state_transition a b = Except.ok () ↔ transitionAllowedSpec a b)
      ∧ (¬ transitionAllowedSpec a b →
          validation.validate_task_state_transition a b =
            Except.error ("Invalid task state transition from " ++ a.debugStr
              ++ " to " ++ b.debugStr)) := by
  intro a b
  cases a <;> cases b <;>
    simp [validation.validate_task_state_transition, transitionAllowedSpec, TaskState.debugStr] <;>
    decide

/-! ## Security schemes (`ApiKeySecurityScheme`, OAuth2 flows, `SecurityScheme`) -/

/-- `ApiKeyLocation` (lib.rs, line 511). -/
inductive ApiKeyLocation where
  | Cookie | Header | Query
deriving DecidableEq

/-- `ApiKeySecurityScheme` (lib.rs, line 522). -/
structure ApiKeySecurityScheme where
  type_ : String
  in_ : ApiKeyLocation
  name : String
  description : Option String

/-- `ApiKeySecurityScheme::new` (lib.rs, line 547). -/
def ApiKeySecurityScheme.new (in_ : ApiKeyLocation) (name : String) : ApiKeySecurityScheme :=
  { type_ := ("apiKey"), in_ := in_, name := name, description := none }

/-- `ApiKeySecurityScheme::validate` (lib.rs, line 561). -/
def ApiKeySecurityScheme.validate (s : ApiKeySecurityScheme) : Except String Unit :=
  if s.type_ ≠ ("apiKey") then
    .error ("API Key security scheme type must be apiKey")
  else if strIsEmpty s.name then
    .error ("API Key parameter name cannot be empty")
  else andThenE
    (match s.in_ with
     | .Header =>
        if strContains s.name ' ' then
          .error ("Header names cannot contain spaces")
        else if strToLower s.name = ("authorization") then
          .error ("Use HTTP security scheme for Authorization header")
        else .ok ()
     | .Query =>
        if strContains s.name ' ' || strContains s.name '&' || strContains s.name '=' then
          .error ("Query parameter names cannot contain spaces, &, or =")
        else .ok ()
     | .Cookie =>
        if strContains s.name ' ' || strContains s.name ';' || strContains s.name '=' then
          .error ("Cookie names cannot contain spaces, ;, or =")
        else .ok ())
    (match s.description with
     | some desc =>
        if bytesLen desc > 500 then
          .error ("Security scheme description is too long (max 500 characters)")
        else .ok ()
     | none => .ok ())

/-- `HttpSecurityScheme` (lib.rs, line 606). -/
structure HttpSecurityScheme where
  type_ : String
  scheme : String
  bearer_format : Option String
  description : Option String

/-- The scope-validation loop shared verbatim by all four OAuth2 flow
`validate` implementations (e.g. lib.rs, lines 876–886): first violating
scope pair yields the error. -/
def checkScopes : List (String × String) → Except String Unit
  | [] => .ok ()
  | (scope_name, scope_desc) :: rest =>
    if strIsEmpty scope_name then .error ("OAuth2 scope name cannot be empty")
    else if strIsEmpty scope_desc then .error ("OAuth2 scope description cannot be empty")
    else if strContains scope_name ' ' then .error ("OAuth2 scope names cannot contain spaces")
    else checkScopes rest

/-- `AuthorizationCodeOAuthFlow` (lib.rs, line 817); `scopes` models the
Rust `HashMap<String, String>` as an association list. -/
structure AuthorizationCodeOAuthFlow where
  authorization_url : String
  token_url : String
  refresh_url : Option String
  scopes : List (String × String)

/-- `AuthorizationCodeOAuthFlow::new` (lib.rs, line 841). -/
def AuthorizationCodeOAuthFlow.new (authorization_url token_url : String)
    (scopes : List (String × String)) : AuthorizationCodeOAuthFlow :=
  { authorization_url := authorization_url, token_url := token_url,
    refresh_url := none, scopes := scopes }

/-- `AuthorizationCodeOAuthFlow::validate` (lib.rs, line 859). -/
def AuthorizationCodeOAuthFlow.validate (f : AuthorizationCodeOAuthFlow) : Except String Unit :=
  andThenE (wrapErr ("Invalid authorization URL: ")
      (validation.validate_url f.authorization_url)) <|
  andThenE (wrapErr ("Invalid token URL: ") (validation.validate_url f.token_url)) <|
  andThenE (match f.refresh_url with
            | some refresh_url =>
                wrapErr ("Invalid refresh URL: ") (validation.validate_url refresh_url)
            | none => .ok ()) <|
  if f.scopes.isEmpty then .error ("OAuth2 flow must define at least one scope")
  else checkScopes f.scopes

/-- `ClientCredentialsOAuthFlow` (lib.rs, line 895). -/
structure ClientCredentialsOAuthFlow where
  token_url : String
  refresh_url : Option String
  scopes : List (String × String)

/-- `ClientCredentialsOAuthFlow::validate` (lib.rs, line 932). -/
def ClientCredentialsOAuthFlow.validate (f : ClientCredentialsOAuthFlow) : Except String Unit :=
  andThenE (wrapErr ("Invalid token URL: ") (validation.validate_url f.token_url)) <|
  andThenE (match f.refresh_url with
            | some refresh_url =>
                wrapErr ("Invalid refresh URL: ") (validation.validate_url refresh_url)
            | none => .ok ()) <|
  if f.scopes.isEmpty then .error ("OAuth2 flow must define at least one scope")
  else checkScopes f.scopes

/-- `ImplicitOAuthFlow` (lib.rs, line 965). -/
structure ImplicitOAuthFlow where
  authorization_url : String
  refresh_url : Option String
  scopes : List (String × String)

/-- `ImplicitOAuthFlow::validate` (lib.rs, line 1002). -/
def ImplicitOAuthFlow.validate (f : ImplicitOAuthFlow) : Except String Unit :=
  andThenE (wrapErr ("Invalid authorization URL: ")
      (validation.validate_url f.authorization_url)) <|
  andThenE (match f.refresh_url with
            | some refresh_url =>
                wrapErr ("Invalid refresh URL: ") (validation.validate_url refresh_url)
            | none => .ok ()) <|
  if f.scopes.isEmpty then .error ("OAuth2 flow must define at least one scope")
  else checkScopes f.scopes

/-- `PasswordOAuthFlow` (lib.rs, line 1035). -/
structure PasswordOAuthFlow where
  token_url : String
  refresh_url : Option String
  scopes : List (String × String)

/-- `PasswordOAuthFlow::validate` (lib.rs, line 1072). -/
def PasswordOAuthFlow.validate (f : PasswordOAuthFlow) : Except String Unit :=
  andThenE (wrapErr ("Invalid token URL: ") (validation.validate_url f.token_url)) <|
  andThenE (match f.refresh_url with
            | some refresh_url =>
                wrapErr ("Invalid refresh URL: ") (validation.validate_url refresh_url)
            | none => .ok ()) <|
  if f.scopes.isEmpty then .error ("OAuth2 flow must define at least one scope")
  else checkScopes f.scopes

/-- `OAuth2Flows` (lib.rs, line 799). -/
structure OAuth2Flows where
  implicit : Option ImplicitOAuthFlow
  password : Option PasswordOAuthFlow
  client_credentials : Option ClientCredentialsOAuthFlow
  authorization_code : Option AuthorizationCodeOAuthFlow

/-- `OAuth2SecurityScheme` (lib.rs, line 703). -/
structure OAuth2SecurityScheme where
  type_ : String
  flows : OAuth2Flows
  description : Option String

/-- `OAuth2SecurityScheme::new` (lib.rs, line 724). -/
def OAuth2SecurityScheme.new (flows : OAuth2Flows) : OAuth2SecurityScheme :=
  { type_ := ("oauth2"), flows := flows, description := none }

/-- `if let Some(ref flow) = ... { flow.validate().map_err(...)? }`: validate
an optional flow, prefixing its error. -/
def optFlowCheck {α : Type} (p : String) (v : α → Except String Unit) :
    Option α → Except String Unit
  | some f => wrapErr p (v f)
  | none => .ok ()

/-- `OAuth2SecurityScheme::validate` (lib.rs, line 737). -/
def OAuth2SecurityScheme.validate (s : OAuth2SecurityScheme) : Except String Unit :=
  if s.type_ ≠ ("oauth2") then
    .error ("OAuth2 security scheme type must be oauth2")
  else if s.flows.implicit.isNone && s.flows.password.isNone &&
          s.flows.client_credentials.isNone && s.flows.authorization_code.isNone then
    .error ("OAuth2 security scheme must define at least one flow")
  else
    andThenE (optFlowCheck ("Invalid implicit flow: ")
        ImplicitOAuthFlow.validate s.flows.implicit) <|
    andThenE (optFlowCheck ("Invalid password flow: ")
        PasswordOAuthFlow.validate s.flows.password) <|
    andThenE (optFlowCheck ("Invalid client credentials flow: ")
        ClientCredentialsOAuthFlow.validate s.flows.client_credentials) <|
    andThenE (optFlowCheck ("Invalid authorization code flow: ")
        AuthorizationCodeOAuthFlow.validate s.flows.authorization_code) <|
    (match s.description with
     | some desc =>
        if bytesLen desc > 500 then
          .error ("Security scheme description is too long (max 500 characters)")
        else .ok ()
     | none => .ok ())

/-- `OAuth2SecurityScheme::requires_user_interaction` (lib.rs, line 791). -/
def OAuth2SecurityScheme.requires_user_interaction (s : OAuth2SecurityScheme) : Bool :=
  s.flows.implicit.isSome || s.flows.authorization_code.isSome

/-- `OpenIdConnectSecurityScheme` (lib.rs, line 1105). -/
structure OpenIdConnectSecurityScheme where
  type_ : String
  open_id_connect_url : String
  description : Option String

/-- `SecurityScheme` (lib.rs, line 1186). -/
inductive SecurityScheme where
  | ApiKey (scheme : ApiKeySecurityScheme)
  | Http (scheme : HttpSecurityScheme)
  | OAuth2 (scheme : OAuth2SecurityScheme)
  | OpenIdConnect (scheme : OpenIdConnectSecurityScheme)

/-- `SecurityScheme::requires_user_interaction` (lib.rs, line 1231). -/
def SecurityScheme.requires_user_interaction : SecurityScheme → Bool
  | .ApiKey _ => false
  | .Http _ => false
  | .OAuth2 scheme => scheme.flows.implicit.isSome || scheme.flows.authorization_code.isSome
  | .OpenIdConnect _ => true

/-! ## Helper lemmas for validation success -/

theorem andThenE_ok_iff (a b : Except String Unit) :
    andThenE a b = Except.ok () ↔ (a = Except.ok () ∧ b = Except.ok ()) := by
  cases a with
  | ok u => cases u; simp [andThenE]
  | error e => simp [andThenE]

theorem wrapErr_ok_iff (p : String) (r : Except String Unit) :
    wrapErr p r = Except.ok () ↔ r = Except.ok () := by
  cases r with
  | ok u => cases u; simp [wrapErr]
  | error e => simp [wrapErr]

theorem checkScopes_ok_iff (l : List (String × String)) :
    checkScopes l = Except.ok () ↔
      ∀ p ∈ l, strIsEmpty p.1 = false ∧ strContains p.1 ' ' = false ∧
        strIsEmpty p.2 = false := by
  induction l with
  | nil => simp [checkScopes]
  | cons hd tl ih =>
    obtain ⟨n, d⟩ := hd
    simp only [checkScopes]
    split_ifs with h1 h2 h3 <;> simp_all

/-- The scope rules as worded in the claims: scopes non-empty, every scope
name non-empty and space-free, every description non-empty. -/
def scopesOkClaim (scopes : List (String × String)) : Prop :=
  scopes ≠ [] ∧ ∀ p ∈ scopes,
    strIsEmpty p.1 = false ∧ strContains p.1 ' ' = false ∧ strIsEmpty p.2 = false

theorem scopeBlock_ok_iff (scopes : List (String × String)) :
    (if scopes.isEmpty then
        Except.error ("OAuth2 flow must define at least one scope")
      else checkScopes scopes) = Except.ok () ↔ scopesOkClaim scopes := by
  split_ifs with h <;> simp_all [checkScopes_ok_iff, scopesOkClaim]

/-- Every URL present in an optional refresh slot passes URL validation. -/
def refreshOkClaim (refresh_url : Option String) : Prop :=
  ∀ r, refresh_url = some r → validation.validate_url r = Except.ok ()

theorem refreshBlock_ok_iff (o : Option String) :
    (match o with
      | some refresh_url =>
          wrapErr ("Invalid refresh URL: ") (validation.validate_url refresh_url)
      | none => Except.ok ()) = Except.ok () ↔ refreshOkClaim o := by
  cases o <;> simp [refreshOkClaim, wrapErr_ok_iff]

theorem optFlowCheck_ok_iff {α : Type} (p : String) (v : α → Except String Unit)
    (o : Option α) :
    optFlowCheck p v o = Except.ok () ↔ ∀ f, o = some f → v f = Except.ok () := by
  cases o <;> simp [optFlowCheck, wrapErr_ok_iff]

/-! ## Per-flow success characterizations (spec wording of §4.3) -/

/-- Claim-side validity of an implicit flow. -/
def implicitFlowOkClaim (f : ImplicitOAuthFlow) : Prop :=
  validation.validate_url f.authorization_url = Except.ok () ∧
    refreshOkClaim f.refresh_url ∧ scopesOkClaim f.scopes

/-- Claim-side validity of a password flow. -/
def passwordFlowOkClaim (f : PasswordOAuthFlow) : Prop :=
  validation.validate_url f.token_url = Except.ok () ∧
    refreshOkClaim f.refresh_url ∧ scopesOkClaim f.scopes

/-- Claim-side validity of a client-credentials flow. -/
def clientCredentialsFlowOkClaim (f : ClientCredentialsOAuthFlow) : Prop :=
  validation.validate_url f.token_url = Except.ok () ∧
    refreshOkClaim f.refresh_url ∧ scopesOkClaim f.scopes

/-- Claim-side validity of an authorization-code flow. -/
def authCodeFlowOkClaim (f : AuthorizationCodeOAuthFlow) : Prop :=
  validation.validate_url f.authorization_url = Except.ok () ∧
    validation.validate_url f.token_url = Except.ok () ∧
    refreshOkClaim f.refresh_url ∧ scopesOkClaim f.scopes

theorem implicitFlow_validate_ok_iff (f : ImplicitOAuthFlow) :
    f.validate = Except.ok () ↔ implicitFlowOkClaim f := by
  simp only [ImplicitOAuthFlow.validate, implicitFlowOkClaim, andThenE_ok_iff,
    wrapErr_ok_iff, refreshBlock_ok_iff, scopeBlock_ok_iff, and_assoc]

theorem passwordFlow_validate_ok_iff (f : PasswordOAuthFlow) :
    f.validate = Except.ok () ↔ passwordFlowOkClaim f := by
  simp only [PasswordOAuthFlow.validate, passwordFlowOkClaim, andThenE_ok_iff,
    wrapErr_ok_iff, refreshBlock_ok_iff, scopeBlock_ok_iff, and_assoc]

theorem clientCredentialsFlow_validate_ok_iff (f : ClientCredentialsOAuthFlow) :
    f.validate = Except.ok () ↔ clientCredentialsFlowOkClaim f := by
  simp only [ClientCredentialsOAuthFlow.validate, clientCredentialsFlowOkClaim,
    andThenE_ok_iff, wrapErr_ok_iff, refreshBlock_ok_iff, scopeBlock_ok_iff, and_assoc]

theorem authCodeFlow_validate_ok_iff (f : AuthorizationCodeOAuthFlow) :
    f.validate = Except.ok () ↔ authCodeFlowOkClaim f := by
  simp only [AuthorizationCodeOAuthFlow.validate, authCodeFlowOkClaim, andThenE_ok_iff,
    wrapErr_ok_iff, refreshBlock_ok_iff, scopeBlock_ok_iff, and_assoc]

/-- "Description (if present) at most 500 characters", the hypothesis the
claims place on scheme descriptions. -/
def descAtMost500 : Option String → Prop
  | some d => bytesLen d ≤ 500
  | none => True

/-- The per-location name rules claim C6 states for an API-key scheme: the
name is non-empty; a Header name has no space and is not (case-insensitively)
"authorization"; a Query name contains none of space, `&`, `=`; a Cookie
name contains none of space, `;`, `=`. -/
def apiKeyNameOkClaim (s : ApiKeySecurityScheme) : Prop :=
  strIsEmpty s.name = false ∧
    (match s.in_ with
     | .Header => strContains s.name ' ' = false ∧ strToLower s.name ≠ ("authorization")
     | .Query =>
        (strContains s.name ' ' || strContains s.name '&' || strContains s.name '=') = false
     | .Cookie =>
        (strContains s.name ' ' || strContains s.name ';' || strContains s.name '=') = false)

/-- C6: for an API-key scheme of type `apiKey` with a description of at most
500 characters, `validate` succeeds exactly when the name is non-empty and
satisfies the per-location rule (Header: no spaces and not
case-insensitively "authorization"; Query: no space, `&`, `=`; Cookie: no
space, `;`, `=`); in particular Header/`X-API-Key` passes and
Header/`Authorization` fails. -/
theorem apikey_validate_spec :
    (∀ s : ApiKeySecurityScheme, s.type_ = ("apiKey") → descAtMost500 s.description →
      (s.validate = Except.ok () ↔ apiKeyNameOkClaim s))
    ∧ (ApiKeySecurityScheme.new .Header ("X-API-Key")).validate = Except.ok ()
    ∧ isErrE (ApiKeySecurityScheme.new .Header ("Authorization")).validate = true := by
  refine ⟨?_, by decide, by decide⟩
  rintro ⟨t, loc, name, desc⟩ ht hd
  subst ht
  cases loc <;> cases desc <;>
    simp_all [ApiKeySecurityScheme.validate, apiKeyNameOkClaim, descAtMost500,
      andThenE_ok_iff] <;>
    split_ifs <;> simp_all [andThenE] <;> first | omega | (intros; simp_all)

/-- C6 witness: the universally quantified part of `apikey_validate_spec`
instantiated at a concrete query-parameter scheme. -/
theorem apikey_validate_spec_witness :
    (ApiKeySecurityScheme.new .Query ("api_key")).validate = Except.ok () :=
  by
  apply (apikey_validate_spec.1 (ApiKeySecurityScheme.new .Query ("api_key")) rfl trivial).mpr
  refine ⟨by decide, ?_⟩
  show (strContains (ApiKeySecurityScheme.new .Query ("api_key")).name ' ' ||
      strContains (ApiKeySecurityScheme.new .Query ("api_key")).name '&' ||
      strContains (ApiKeySecurityScheme.new .Query ("api_key")).name '=') = false
  decide

/-- C10: `SecurityScheme::requires_user_interaction` is `false` on the
ApiKey and Http variants, `true` on OpenIdConnect, and on OAuth2 it is true
exactly when the implicit or the authorization-code flow is present,
agreeing with `OAuth2SecurityScheme::requires_user_interaction`. -/
theorem requires_user_interaction_spec :
    (∀ a : ApiKeySecurityScheme,
        SecurityScheme.requires_user_interaction (SecurityScheme.ApiKey a) = false)
    ∧ (∀ h : HttpSecurityScheme,
        SecurityScheme.requires_user_interaction (SecurityScheme.Http h) = false)
    ∧ (∀ o : OpenIdConnectSecurityScheme,
        SecurityScheme.requires_user_interaction (SecurityScheme.OpenIdConnect o) = true)
    ∧ (∀ s : OAuth2SecurityScheme,
        (SecurityScheme.requires_user_interaction (SecurityScheme.OAuth2 s) = true ↔
          (s.flows.implicit.isSome = true ∨ s.flows.authorization_code.isSome = true)))
    ∧ (∀ s : OAuth2SecurityScheme,
        SecurityScheme.requires_user_interaction (SecurityScheme.OAuth2 s) =
          s.requires_user_interaction) := by
  refine ⟨fun a => rfl, fun h => rfl, fun o => rfl, fun s => ?_, fun s => rfl⟩
  simp [SecurityScheme.requires_user_interaction]

/-- All four OAuth2 flow slots empty. -/
def allFlowsNone (flows : OAuth2Flows) : Prop :=
  flows.implicit = none ∧ flows.password = none ∧
    flows.client_credentials = none ∧ flows.authorization_code = none

/-- A concrete OAuth2 scheme with a single valid authorization-code flow
(valid authorization and token URLs, one well-formed scope). -/
def oauth2AuthCodeExample : OAuth2SecurityScheme :=
  OAuth2SecurityScheme.new
    { implicit := none, password := none, client_credentials := none,
      authorization_code := some (AuthorizationCodeOAuthFlow.new
        ("https://auth.example.com/authorize") ("https://auth.example.com/token")
        [(("read"), ("Read access"))]) }

/-- A concrete OAuth2 scheme with all four flow slots empty. -/
def oauth2NoFlows : OAuth2SecurityScheme :=
  OAuth2SecurityScheme.new
    { implicit := none, password := none, client_credentials := none,
      authorization_code := none }

/-- C7: for an OAuth2 scheme of type `oauth2` with a description of at most
500 characters, `validate` fails with the "must define at least one flow"
error when all four flows are absent, and otherwise succeeds exactly when
every present flow is valid (its URLs pass URL validation, its scopes are
non-empty, and every scope has a non-empty space-free name and a non-empty
description); a scheme with a single valid authorization-code flow passes. -/
theorem oauth2_validate_spec :
    (∀ s : OAuth2SecurityScheme, s.type_ = ("oauth2") → descAtMost500 s.description →
      (allFlowsNone s.flows →
        s.validate = Except.error ("OAuth2 security scheme must define at least one flow"))
      ∧ (s.validate = Except.ok () ↔
          (¬ allFlowsNone s.flows ∧
            (∀ f, s.flows.implicit = some f → implicitFlowOkClaim f) ∧
            (∀ f, s.flows.password = some f → passwordFlowOkClaim f) ∧
            (∀ f, s.flows.client_credentials = some f → clientCredentialsFlowOkClaim f) ∧
            (∀ f, s.flows.authorization_code = some f → authCodeFlowOkClaim f))))
    ∧ oauth2AuthCodeExample.validate = Except.ok () := by
  refine ⟨?_, by decide⟩
  rintro ⟨t, ⟨fi, fp, fc, fa⟩, desc⟩ ht hd
  subst ht
  constructor
  · rintro ⟨hi, hp, hc, ha⟩
    simp only at hi hp hc ha
    subst hi; subst hp; subst hc; subst ha
    rfl
  · cases desc <;>
      simp_all [OAuth2SecurityScheme.validate, allFlowsNone, descAtMost500, andThenE_ok_iff,
        optFlowCheck_ok_iff, implicitFlow_validate_ok_iff, passwordFlow_validate_ok_iff,
        clientCredentialsFlow_validate_ok_iff, authCodeFlow_validate_ok_iff,
        Option.isNone_iff_eq_none] <;>
      split_ifs <;>
      simp_all [andThenE_ok_iff, optFlowCheck_ok_iff, implicitFlow_validate_ok_iff,
        passwordFlow_validate_ok_iff, clientCredentialsFlow_validate_ok_iff,
        authCodeFlow_validate_ok_iff] <;> omega

/-- C7 witness: `oauth2_validate_spec` applied to the concrete scheme with
all four flow slots empty. -/
theorem oauth2_validate_spec_witness :
    oauth2NoFlows.validate =
      Except.error ("OAuth2 security scheme must define at least one flow") :=
  (oauth2_validate_spec.1 oauth2NoFlows rfl trivial).1 ⟨rfl, rfl, rfl, rfl⟩

/-! ## Agent card (`AgentCard`, `PROTOCOL_VERSION`) -/

/-- `PROTOCOL_VERSION` (lib.rs, line 12). -/
def PROTOCOL_VERSION : String := "0.2.5"

/-- `AgentExtension` (lib.rs, line 1247). -/
structure AgentExtension where
  uri : String
  required : Option Bool
  description : Option String
  params : Option Json

/-- `AgentCapabilities` (lib.rs, line 1692). -/
structure AgentCapabilities where
  extensions : Option (List AgentExtension)
  push_notifications : Option Bool
  state_transition_history : Option Bool
  streaming : Option Bool

/-- `AgentInterface` (lib.rs, line 1710). -/
structure AgentInterface where
  url : String
  transport : String

/-- `AgentProvider` (lib.rs, line 1719). -/
structure AgentProvider where
  organization : String
  url : String

/-- `AgentSkill` (lib.rs, line 1728). -/
structure AgentSkill where
  name : String
  description : String
  input_modes : Option (List String)
  output_modes : Option (List String)
  examples : Option (List String)

/-- `AgentCard` (lib.rs, line 1746); the Rust `HashMap`s in `security` and
`security_schemes` are modelled as association lists. -/
structure AgentCard where
  name : String
  description : String
  version : String
  protocol_version : String
  url : String
  preferred_transport : Option String
  capabilities : AgentCapabilities
  default_input_modes : List String
  default_output_modes : List String
  skills : List AgentSkill
  provider : Option AgentProvider
  documentation_url : Option String
  icon_url : Option String
  supports_authenticated_extended_card : Option Bool
  additional_interfaces : Option (List AgentInterface)
  security : Option (List (List (String × List String)))
  security_schemes : Option (List (String × SecurityScheme))

/-- `AgentCard::new` (lib.rs, line 1811). -/
def AgentCard.new (name description version url : String)
    (capabilities : AgentCapabilities)
    (default_input_modes default_output_modes : List String)
    (skills : List AgentSkill) : AgentCard :=
  { name := name, description := description, version := version,
    protocol_version := PROTOCOL_VERSION, url := url,
    preferred_transport := none, capabilities := capabilities,
    default_input_modes := default_input_modes,
    default_output_modes := default_output_modes, skills := skills,
    provider := none, documentation_url := none, icon_url := none,
    supports_authenticated_extended_card := none, additional_interfaces := none,
    security := none, security_schemes := none }

/-- C9: for every choice of the eight arguments, `AgentCard::new` produces a
card whose `protocol_version` is the compile-time constant
`PROTOCOL_VERSION` (the string "0.2.5") and whose optional fields
(`preferred_transport`, `provider`, `documentation_url`, `icon_url`,
`supports_authenticated_extended_card`, `additional_interfaces`, `security`,
`security_schemes`) are all absent. -/
theorem agentcard_new_spec :
    ∀ (name description version url : String) (capabilities : AgentCapabilities)
      (default_input_modes default_output_modes : List String)
      (skills : List AgentSkill),
      (AgentCard.new name description version url capabilities default_input_modes
          default_output_modes skills).protocol_version = PROTOCOL_VERSION
      ∧ PROTOCOL_VERSION = ("0.2.5")
      ∧ (AgentCard.new name description version url capabilities default_input_modes
          default_output_modes skills).preferred_transport = none
      ∧ (AgentCard.new name description version url capabilities default_input_modes
          default_output_modes skills).provider = none
      ∧ (AgentCard.new name description version url capabilities default_input_modes
          default_output_modes skills).documentation_url = none
      ∧ (AgentCard.new name description version url capabilities default_input_modes
          default_output_modes skills).icon_url = none
      ∧ (AgentCard.new name description version url capabilities default_input_modes
          default_output_modes skills).supports_authenticated_extended_card = none
      ∧ (AgentCard.new name description version url capabilities default_input_modes
          default_output_modes skills).additional_interfaces = none
      ∧ (AgentCard.new name description version url capabilities default_input_modes
          default_output_modes skills).security = none
      ∧ (AgentCard.new name description version url capabilities default_input_modes
          default_output_modes skills).security_schemes = none := by
  intro name description version url capabilities default_input_modes default_output_modes skills
  exact ⟨rfl, rfl, rfl, rfl, rfl, rfl, rfl, rfl, rfl, rfl⟩

/-! ## Request methods (`RequestMethod`) -/

/-- `RequestMethod` (lib.rs, line 166). -/
inductive RequestMethod where
  | MessageSend | MessageStream | TasksGet | TasksCancel
  | TasksPushNotificationConfigSet | TasksPushNotificationConfigGet
  | TasksPushNotificationConfigList | TasksPushNotificationConfigDelete
  | TasksResubscribe
deriving DecidableEq

/-- `RequestMethod::as_str` (lib.rs, line 210). -/
def RequestMethod.as_str : RequestMethod → String
  | .MessageSend => "message/send"
  | .MessageStream => "message/stream"
  | .TasksGet => "tasks/get"
  | .TasksCancel => "tasks/cancel"
  | .TasksPushNotificationConfigSet => "tasks/pushNotificationConfig/set"
  | .TasksPushNotificationConfigGet => "tasks/pushNotificationConfig/get"
  | .TasksPushNotificationConfigList => "tasks/pushNotificationConfig/list"
  | .TasksPushNotificationConfigDelete => "tasks/pushNotificationConfig/delete"
  | .TasksResubscribe => "tasks/resubscribe"

/-- `RequestMethod::from_str` (lib.rs, line 225): the nine canonical strings
plus the three backward-compatibility aliases. -/
def RequestMethod.from_str (s : String) : Option RequestMethod :=
  if s = ("message/send") then some .MessageSend
  else if s = ("message/stream") then some .MessageStream
  else if s = ("tasks/get") then some .TasksGet
  else if s = ("tasks/cancel") then some .TasksCancel
  else if s = ("tasks/pushNotificationConfig/set") then some .TasksPushNotificationConfigSet
  else if s = ("tasks/pushNotificationConfig/get") then some .TasksPushNotificationConfigGet
  else if s = ("tasks/pushNotificationConfig/list") then some .TasksPushNotificationConfigList
  else if s = ("tasks/pushNotificationConfig/delete") then
    some .TasksPushNotificationConfigDelete
  else if s = ("tasks/resubscribe") then some .TasksResubscribe
  else if s = ("sendMessage") then some .MessageSend
  else if s = ("getTask") then some .TasksGet
  else if s = ("cancelTask") then some .TasksCancel
  else none

/-- The nine canonical wire strings. -/
def canonicalMethodStrings : List String :=
  ["message/send", "message/stream", "tasks/get", "tasks/cancel",
   "tasks/pushNotificationConfig/set", "tasks/pushNotificationConfig/get",
   "tasks/pushNotificationConfig/list", "tasks/pushNotificationConfig/delete",
   "tasks/resubscribe"]

/-- The strings `from_str` recognizes: the nine canonical ones plus the
three legacy aliases. -/
def recognizedMethodStrings : List String :=
  canonicalMethodStrings ++ ["sendMessage", "getTask", "cancelTask"]

/-- C8: `from_str` decodes the nine canonical strings and the three legacy
aliases (`sendMessage`, `getTask`, `cancelTask`) and nothing else;
`as_str` always yields a canonical string, decode-then-encode is the
identity on methods, and re-encoding a method decoded from an alias yields
the canonical string. -/
theorem request_method_spec :
    (∀ m : RequestMethod, RequestMethod.from_str m.as_str = some m)
    ∧ RequestMethod.from_str ("sendMessage") = some RequestMethod.MessageSend
    ∧ RequestMethod.from_str ("getTask") = some RequestMethod.TasksGet
    ∧ RequestMethod.from_str ("cancelTask") = some RequestMethod.TasksCancel
    ∧ (∀ s : String, s ∉ recognizedMethodStrings → RequestMethod.from_str s = none)
    ∧ (∀ m : RequestMethod, m.as_str ∈ canonicalMethodStrings)
    ∧ Option.map RequestMethod.as_str (RequestMethod.from_str ("sendMessage")) =
        some ("message/send")
    ∧ Option.map RequestMethod.as_str (RequestMethod.from_str ("getTask")) =
        some ("tasks/get")
    ∧ Option.map RequestMethod.as_str (RequestMethod.from_str ("cancelTask")) =
        some ("tasks/cancel") := by
  refine ⟨?_, by decide, by decide, by decide, ?_, ?_, by decide, by decide, by decide⟩
  · intro m; cases m <;> decide
  · intro s hs
    simp only [recognizedMethodStrings, canonicalMethodStrings, List.append_assoc,
      List.cons_append, List.nil_append, List.mem_cons, List.not_mem_nil] at hs
    push_neg at hs
    obtain ⟨h1, h2, h3, h4, h5, h6, h7, h8, h9, h10, h11, h12⟩ := hs
    simp only [RequestMethod.from_str, if_neg h1, if_neg h2, if_neg h3, if_neg h4,
      if_neg h5, if_neg h6, if_neg h7, if_neg h8, if_neg h9, if_neg h10, if_neg h11,
      if_neg h12.1]
  · intro m; cases m <;> decide

/-- C8 witness: `request_method_spec` instantiated at a concrete
unrecognized method string. -/
theorem request_method_spec_witness :
    RequestMethod.from_str ("tasks/unknown") = none :=
  request_method_spec.2.2.2.2.1 ("tasks/unknown") (by decide)

/-! ## Message / part / event model -/

/-- `MessageRole` (lib.rs, line 50). -/
inductive MessageRole where
  | Agent | User
deriving DecidableEq

/-- `FileWithBytes` (lib.rs, line 107). -/
structure FileWithBytes where
  bytes : String
  name : Option String
  mime_type : Option String

/-- `FileWithUri` (lib.rs, line 120). -/
structure FileWithUri where
  uri : String
  name : Option String
  mime_type : Option String

/-- `FileContent` (lib.rs, line 100). -/
inductive FileContent where
  | WithBytes (f : FileWithBytes)
  | WithUri (f : FileWithUri)

/-- `TextPart` (lib.rs, line 69). -/
structure TextPart where
  text : String
  metadata : Option Json

/-- `FilePart` (lib.rs, line 79). -/
structure FilePart where
  file : FileContent
  metadata : Option Json

/-- `DataPart` (lib.rs, line 89). -/
structure DataPart where
  data : Json
  metadata : Option Json

/-- `Part` (lib.rs, line 58); named `MsgPart` here because Mathlib already
declares `Part`. -/
inductive MsgPart where
  | Text (p : TextPart)
  | File (p : FilePart)
  | Data (p : DataPart)

/-- `Message` (lib.rs, line 20). -/
structure Message where
  kind : String
  message_id : String
  parts : List MsgPart
  role : MessageRole
  context_id : Option String
  extensions : Option (List String)
  metadata : Option Json
  reference_task_ids : Option (List String)
  task_id : Option String

/-- `TaskStatus` (lib.rs, line 152). -/
structure TaskStatus where
  state : TaskState
  message : Option Message
  timestamp : Option String

/-- `Artifact` (lib.rs, line 1887). -/
structure Artifact where
  artifact_id : String
  parts : List MsgPart
  description : Option String
  extensions : Option (List String)
  metadata : Option Json
  name : Option String

/-- `TaskArtifactUpdateEvent` (lib.rs, line 1909). -/
structure TaskArtifactUpdateEvent where
  kind : String
  task_id : String
  context_id : String
  artifact : Artifact
  append : Option Bool
  last_chunk : Option Bool
  metadata : Option Json

/-- `TaskArtifactUpdateEvent::new` (lib.rs, line 1943). -/
def TaskArtifactUpdateEvent.new (task_id context_id : String)
    (artifact : Artifact) : TaskArtifactUpdateEvent :=
  { kind := ("artifact-update"), task_id := task_id, context_id := context_id,
    artifact := artifact, append := none, last_chunk := none, metadata := none }

/-- `TaskArtifactUpdateEvent::validate` (lib.rs, line 1960). -/
def TaskArtifactUpdateEvent.validate (e : TaskArtifactUpdateEvent) : Except String Unit :=
  if e.kind ≠ ("artifact-update") then
    .error ("TaskArtifactUpdateEvent kind must be artifact-update")
  else andThenE (validation.validate_task_id e.task_id) <|
    if strIsEmpty e.context_id then .error ("Context ID cannot be empty")
    else if e.artifact.parts.isEmpty then
      .error ("Artifact must contain at least one part")
    else
      match e.append, e.last_chunk with
      | some append, some last_chunk =>
          if append && last_chunk then
            .error ("Artifact cannot both append and be the last chunk")
          else .ok ()
      | _, _ => .ok ()

/-- `TaskStatusUpdateEvent` (lib.rs, line 2009). -/
structure TaskStatusUpdateEvent where
  kind : String
  task_id : String
  context_id : String
  status : TaskStatus
  final_event : Bool
  metadata : Option Json

/-- `TaskStatusUpdateEvent::new` (lib.rs, line 2041). -/
def TaskStatusUpdateEvent.new (task_id context_id : String) (status : TaskStatus)
    (final_event : Bool) : TaskStatusUpdateEvent :=
  { kind := ("status-update"), task_id := task_id, context_id := context_id,
    status := status, final_event := final_event, metadata := none }

/-- `TaskStatusUpdateEvent::validate` (lib.rs, line 2057). -/
def TaskStatusUpdateEvent.validate (e : TaskStatusUpdateEvent) : Except String Unit :=
  if e.kind ≠ ("status-update") then
    .error ("TaskStatusUpdateEvent kind must be status-update")
  else andThenE (validation.validate_task_id e.task_id) <|
    if strIsEmpty e.context_id then .error ("Context ID cannot be empty")
    else if e.final_event then
      match e.status.state with
      | .Completed => .ok ()
      | .Failed => .ok ()
      | .Canceled => .ok ()
      | .Rejected => .ok ()
      | _ => .error ("Final status update events must have terminal task states")
    else .ok ()

/-- C3: for a well-formed artifact-update event (correct kind, valid task
id, non-empty context id, non-empty artifact parts), `validate` fails
exactly when both `append` and `last_chunk` are `Some(true)`; for a
well-formed status-update event with `final = true`, `validate` succeeds
exactly when the embedded state is terminal (Completed/Failed/Canceled/
Rejected); in particular final+Working fails and final+Completed passes. -/
theorem streaming_event_validate_spec :
    (∀ e : TaskArtifactUpdateEvent, e.kind = ("artifact-update") →
      validation.validate_task_id e.task_id = Except.ok () →
      strIsEmpty e.context_id = false →
      e.artifact.parts.isEmpty = false →
      (isErrE e.validate = true ↔ (e.append = some true ∧ e.last_chunk = some true)))
    ∧ (∀ e : TaskStatusUpdateEvent, e.kind = ("status-update") →
      validation.validate_task_id e.task_id = Except.ok () →
      strIsEmpty e.context_id = false →
      e.final_event = true →
      (e.validate = Except.ok () ↔
        (e.status.state = TaskState.Completed ∨ e.status.state = TaskState.Failed ∨
          e.status.state = TaskState.Canceled ∨ e.status.state = TaskState.Rejected)))
    ∧ isErrE (TaskStatusUpdateEvent.new ("task-1") ("ctx-1")
        { state := TaskState.Working, message := none, timestamp := none } true).validate = true
    ∧ (TaskStatusUpdateEvent.new ("task-1") ("ctx-1")
        { state := TaskState.Completed, message := none, timestamp := none } true).validate =
        Except.ok () := by
  refine ⟨?_, ?_, by decide, by decide⟩
  · rintro ⟨k, tid, cid, art, app, lc, md⟩ ht hv hc hp
    subst ht
    cases app <;> cases lc <;>
      simp_all [TaskArtifactUpdateEvent.validate, andThenE, isErrE] <;>
      split_ifs <;> simp_all
  · rintro ⟨k, tid, cid, ⟨st, msg, ts⟩, fe, md⟩ ht hv hc hf
    subst ht; subst hf
    cases st <;> simp_all [TaskStatusUpdateEvent.validate, andThenE]

/-- A concrete artifact-update event with both `append` and `last_chunk` set. -/
def artifactEventBothFlags : TaskArtifactUpdateEvent :=
  { kind := ("artifact-update"), task_id := ("task-3"), context_id := ("ctx-3"),
    artifact := { artifact_id := ("a1"), parts := [MsgPart.Text { text := ("hello"), metadata := none }],
                  description := none, extensions := none, metadata := none, name := none },
    append := some true, last_chunk := some true, metadata := none }

/-- C3 witness: `streaming_event_validate_spec` instantiated at a concrete
double-flagged artifact event and at a concrete final Failed status event. -/
theorem streaming_event_validate_spec_witness :
    isErrE artifactEventBothFlags.validate = true
    ∧ (TaskStatusUpdateEvent.new ("task-2") ("ctx-2")
        { state := TaskState.Failed, message := none, timestamp := none } true).validate =
      Except.ok () :=
  ⟨(streaming_event_validate_spec.1 artifactEventBothFlags
      rfl (by decide) (by decide) (by decide)).mpr ⟨rfl, rfl⟩,
   (streaming_event_validate_spec.2.1
      (TaskStatusUpdateEvent.new ("task-2") ("ctx-2")
        { state := TaskState.Failed, message := none, timestamp := none } true)
      rfl (by decide) (by decide) rfl).mpr (Or.inr (Or.inl rfl))⟩

/-! ## Error taxonomy (`A2AError` and the eleven fixed-code kinds) -/

/-- `JSONParseError` (lib.rs, line 265); code is always -32700. -/
structure JSONParseError where
  code : Int
  message : String
  data : Option Json

/-- `InvalidRequestError` (lib.rs, line 277); code -32600. -/
structure InvalidRequestError where
  code : Int
  message : String
  data : Option Json

/-- `MethodNotFoundError` (lib.rs, line 289); code -32601. -/
structure MethodNotFoundError where
  code : Int
  message : String
  data : Option Json

/-- `InvalidParamsError` (lib.rs, line 301); code -32602. -/
structure InvalidParamsError where
  code : Int
  message : String
  data : Option Json

/-- `InternalError` (lib.rs, line 313); code -32603. -/
structure InternalError where
  code : Int
  message : String
  data : Option Json

/-- `TaskNotFoundError` (lib.rs, line 325); code -32001. -/
structure TaskNotFoundError where
  code : Int
  message : String
  data : Option Json

/-- `TaskNotCancelableError` (lib.rs, line 337); code -32002. -/
structure TaskNotCancelableError where
  code : Int
  message : String
  data : Option Json

/-- `PushNotificationNotSupportedError` (lib.rs, line 349); code -32003. -/
structure PushNotificationNotSupportedError where
  code : Int
  message : String
  data : Option Json

/-- `UnsupportedOperationError` (lib.rs, line 361); code -32004. -/
structure UnsupportedOperationError where
  code : Int
  message : String
  data : Option Json

/-- `ContentTypeNotSupportedError` (lib.rs, line 373); code -32005. -/
structure ContentTypeNotSupportedError where
  code : Int
  message : String
  data : Option Json

/-- `InvalidAgentResponseError` (lib.rs, line 385); code -32006. -/
structure InvalidAgentResponseError where
  code : Int
  message : String
  data : Option Json

/-- The derived serde `Serialize` for each error struct: a flat object with
`code`, `message`, and `data` only when present
(`skip_serializing_if = "Option::is_none"`). -/
def serdeErrorObj (code : Int) (message : String) (data : Option Json) : Json :=
  Json.obj ([(("code"), Json.num code), (("message"), Json.str message)] ++
    (match data with
     | some d => [(("data"), d)]
     | none => []))

/-- The derived serde `Deserialize` for each error struct: requires an
integer `code` and a string `message`, takes `data` when present, and
ignores unknown fields. -/
def serdeErrorFields (j : Json) : Except String (Int × String × Option Json) :=
  match (j.get ("code")).bind Json.asInt, (j.get ("message")).bind Json.asStr with
  | some c, some m => .ok (c, m, j.get ("data"))
  | _, _ => .error ("invalid error object")

/-- `A2AError` (lib.rs, line 398): the untagged union of the eleven kinds. -/
inductive A2AError where
  | JSONParse (e : JSONParseError)
  | InvalidRequest (e : InvalidRequestError)
  | MethodNotFound (e : MethodNotFoundError)
  | InvalidParams (e : InvalidParamsError)
  | Internal (e : InternalError)
  | TaskNotFound (e : TaskNotFoundError)
  | TaskNotCancelable (e : TaskNotCancelableError)
  | PushNotificationNotSupported (e : PushNotificationNotSupportedError)
  | UnsupportedOperation (e : UnsupportedOperationError)
  | ContentTypeNotSupported (e : ContentTypeNotSupportedError)
  | InvalidAgentResponse (e : InvalidAgentResponseError)

/-- The derived (untagged) `Serialize` for `A2AError`: serialize the wrapped
struct. -/
def A2AError.serialize : A2AError → Json
  | .JSONParse e => serdeErrorObj e.code e.message e.data
  | .InvalidRequest e => serdeErrorObj e.code e.message e.data
  | .MethodNotFound e => serdeErrorObj e.code e.message e.data
  | .InvalidParams e => serdeErrorObj e.code e.message e.data
  | .Internal e => serdeErrorObj e.code e.message e.data
  | .TaskNotFound e => serdeErrorObj e.code e.message e.data
  | .TaskNotCancelable e => serdeErrorObj e.code e.message e.data
  | .PushNotificationNotSupported e => serdeErrorObj e.code e.message e.data
  | .UnsupportedOperation e => serdeErrorObj e.code e.message e.data
  | .ContentTypeNotSupported e => serdeErrorObj e.code e.message e.data
  | .InvalidAgentResponse e => serdeErrorObj e.code e.message e.data

/-- The custom `Deserialize` for `A2AError` (lib.rs, line 423): read `code`
via `as_i64`, dispatch on the eleven fixed codes, reject anything else. -/
def A2AError.deserialize (j : Json) : Except String A2AError :=
  match (j.get ("code")).bind Json.asInt with
  | none => .error ("missing field code")
  | some code =>
    if code = -32700 then
      (serdeErrorFields j).map (fun t => .JSONParse ⟨t.1, t.2.1, t.2.2⟩)
    else if code = -32600 then
      (serdeErrorFields j).map (fun t => .InvalidRequest ⟨t.1, t.2.1, t.2.2⟩)
    else if code = -32601 then
      (serdeErrorFields j).map (fun t => .MethodNotFound ⟨t.1, t.2.1, t.2.2⟩)
    else if code = -32602 then
      (serdeErrorFields j).map (fun t => .InvalidParams ⟨t.1, t.2.1, t.2.2⟩)
    else if code = -32603 then
      (serdeErrorFields j).map (fun t => .Internal ⟨t.1, t.2.1, t.2.2⟩)
    else if code = -32001 then
      (serdeErrorFields j).map (fun t => .TaskNotFound ⟨t.1, t.2.1, t.2.2⟩)
    else if code = -32002 then
      (serdeErrorFields j).map (fun t => .TaskNotCancelable ⟨t.1, t.2.1, t.2.2⟩)
    else if code = -32003 then
      (serdeErrorFields j).map (fun t => .PushNotificationNotSupported ⟨t.1, t.2.1, t.2.2⟩)
    else if code = -32004 then
      (serdeErrorFields j).map (fun t => .UnsupportedOperation ⟨t.1, t.2.1, t.2.2⟩)
    else if code = -32005 then
      (serdeErrorFields j).map (fun t => .ContentTypeNotSupported ⟨t.1, t.2.1, t.2.2⟩)
    else if code = -32006 then
      (serdeErrorFields j).map (fun t => .InvalidAgentResponse ⟨t.1, t.2.1, t.2.2⟩)
    else .error ("Unknown error code: " ++ toString code)

/-- The `code` field of the wrapped struct. -/
def A2AError.code : A2AError → Int
  | .JSONParse e => e.code
  | .InvalidRequest e => e.code
  | .MethodNotFound e => e.code
  | .InvalidParams e => e.code
  | .Internal e => e.code
  | .TaskNotFound e => e.code
  | .TaskNotCancelable e => e.code
  | .PushNotificationNotSupported e => e.code
  | .UnsupportedOperation e => e.code
  | .ContentTypeNotSupported e => e.code
  | .InvalidAgentResponse e => e.code

/-- The fixed code of each kind (the comment contract in lib.rs). -/
def A2AError.kindCode : A2AError → Int
  | .JSONParse _ => -32700
  | .InvalidRequest _ => -32600
  | .MethodNotFound _ => -32601
  | .InvalidParams _ => -32602
  | .Internal _ => -32603
  | .TaskNotFound _ => -32001
  | .TaskNotCancelable _ => -32002
  | .PushNotificationNotSupported _ => -32003
  | .UnsupportedOperation _ => -32004
  | .ContentTypeNotSupported _ => -32005
  | .InvalidAgentResponse _ => -32006

/-- The eleven fixed wire codes. -/
def a2aFixedCodes : List Int :=
  [-32700, -32600, -32601, -32602, -32603, -32001, -32002, -32003, -32004, -32005, -32006]

/-- C2: for each of the eleven kinds, serializing a value whose `code` field
equals the kind's fixed code and deserializing yields the same kind with
`code`, `message`, and `data` preserved; deserializing any JSON value whose
`code` field is absent (or not an integer) or is not one of the eleven fixed
codes fails with a decode error. -/
theorem a2a_error_roundtrip_spec :
    (∀ e : A2AError, e.code = e.kindCode →
      A2AError.deserialize (A2AError.serialize e) = Except.ok e)
    ∧ (∀ j : Json,
        ((j.get ("code")).bind Json.asInt = none ∨
          (∀ c, (j.get ("code")).bind Json.asInt = some c → c ∉ a2aFixedCodes)) →
        isErrE (A2AError.deserialize j) = true) := by
  constructor
  · rintro (⟨c, m, d⟩|⟨c, m, d⟩|⟨c, m, d⟩|⟨c, m, d⟩|⟨c, m, d⟩|⟨c, m, d⟩|⟨c, m, d⟩|
      ⟨c, m, d⟩|⟨c, m, d⟩|⟨c, m, d⟩|⟨c, m, d⟩) h <;>
      (simp only [A2AError.code, A2AError.kindCode] at h; subst h; cases d <;> rfl)
  · intro j hj
    rcases hcase : (j.get ("code")).bind Json.asInt with _ | c
    · simp [A2AError.deserialize, hcase, isErrE]
    · rcases hj with hnone | hnot
      · rw [hcase] at hnone; cases hnone
      · have hc := hnot c hcase
        simp only [a2aFixedCodes, List.mem_cons, List.not_mem_nil, or_false] at hc
        push_neg at hc
        obtain ⟨n1, n2, n3, n4, n5, n6, n7, n8, n9, n10, n11⟩ := hc
        simp only [A2AError.deserialize, hcase, if_neg n1, if_neg n2, if_neg n3,
          if_neg n4, if_neg n5, if_neg n6, if_neg n7, if_neg n8, if_neg n9,
          if_neg n10, if_neg n11, isErrE]

/-- C2 witness: `a2a_error_roundtrip_spec` applied to a concrete
task-not-found error value and to a concrete object with an unknown code. -/
theorem a2a_error_roundtrip_spec_witness :
    A2AError.deserialize (A2AError.serialize
        (A2AError.TaskNotFound ⟨-32001, ("Task not found"), none⟩)) =
      Except.ok (A2AError.TaskNotFound ⟨-32001, ("Task not found"), none⟩)
    ∧ isErrE (A2AError.deserialize (Json.obj [(("code"), Json.num 42)])) = true :=
  ⟨a2a_error_roundtrip_spec.1 (A2AError.TaskNotFound ⟨-32001, ("Task not found"), none⟩) rfl,
   a2a_error_roundtrip_spec.2 (Json.obj [(("code"), Json.num 42)])
     (Or.inr (by intro x hx; simp [Json.get, Json.asInt] at hx; subst hx; decide))⟩

/-- C1 witness: `validate_task_state_transition_spec` applied at the
concrete disallowed pair Completed → Working. -/
theorem validate_task_state_transition_spec_witness :
    validation.validate_task_state_transition TaskState.Completed TaskState.Working =
      Except.error ("Invalid task state transition from " ++ TaskState.Completed.debugStr
        ++ " to " ++ TaskState.Working.debugStr) :=
  (validate_task_state_transition_spec TaskState.Completed TaskState.Working).2 (by decide)
